import Mathlib

/-!
Verification of the simple Flask example API
(src/examples/simple-python/app/init module).

The module defines five handlers (health, info, hello, not_found,
internal_error), a module-level PORT constant resolved from the
environment, and registers the three GET routes /health, /api/info and
/api/hello.  Handlers build their bodies with jsonify, i.e. every body is
a JSON object mapping string keys to string or integer values; we embed
such bodies as association lists over a small JSON value type.

The wall clock (datetime.utcnow) and the process environment are passed
to the embedded handlers as explicit arguments: the source reads them at
the corresponding program points (utcnow inside health, DEBUG inside
internal_error, PORT once at module import).
-/

namespace SimplePyApp

/-- A JSON scalar as produced by the handlers via jsonify: the bodies in
this module only ever contain string and integer fields. -/
inductive JValue where
  | str : String → JValue
  | int : Int → JValue
deriving DecidableEq

/-- An HTTP response: numeric status code plus a JSON-object body,
embedded as an association list from field name to JSON scalar. -/
structure Response where
  status : Nat
  body : List (String × JValue)
deriving DecidableEq

/-- An incoming request: method, path, and the already-percent-decoded
query parameters in order of appearance (Werkzeug hands the handler the
decoded multi-dict; request.args.get returns the first value). -/
structure Request where
  method : String
  path : String
  args : List (String × String)
deriving DecidableEq

/-- The process environment slice this module reads: the PORT and DEBUG
variables (os.environ.get returns none when the variable is unset). -/
structure Env where
  PORT : Option String
  DEBUG : Option String
deriving DecidableEq

/-- Python truthiness of an optional environment string, as used by
`if os.environ.get('DEBUG')`: None and the empty string are falsy, every
other string is truthy. -/
def envTruthy : Option String → Bool
  | none => false
  | some s => s ≠ ""

/-- First value bound to a key in an association list, with a default:
the embedding of request.args.get(key, default) on a Werkzeug MultiDict,
which returns the value of the first occurrence of the key. -/
def argsGet (args : List (String × String)) (k d : String) : String :=
  match args.find? (fun p => p.1 == k) with
  | some p => p.2
  | none => d

/-- Field lookup in a response body. -/
def bodyGet (b : List (String × JValue)) (k : String) : Option JValue :=
  (b.find? (fun p => p.1 == k)).map (fun p => p.2)

/-- The timestamp string of a response body, empty when the field is
absent or not a string: the observation used to compare two health
responses. -/
def timestampOf (r : Response) : String :=
  match bodyGet r.body "timestamp" with
  | some (JValue.str s) => s
  | _ => ""

/-! ## The wall clock and datetime.utcnow().isoformat()

datetime.utcnow() yields a naive datetime with year in 1..9999, month
1..12, day 1..31, hour < 24, minute < 60, second < 60 and
microsecond < 1000000.  isoformat() prints
YYYY-MM-DDTHH:MM:SS followed by .ffffff exactly when microsecond is
non-zero, every numeric field zero-padded to its fixed width. -/

/-- A naive UTC datetime as produced by datetime.utcnow(). -/
structure UTCDateTime where
  year : Nat
  month : Nat
  day : Nat
  hour : Nat
  minute : Nat
  second : Nat
  microsecond : Nat
deriving DecidableEq

/-- Field ranges guaranteed by the datetime library (MINYEAR = 1,
MAXYEAR = 9999). -/
def DTValid (t : UTCDateTime) : Prop :=
  1 ≤ t.year ∧ t.year ≤ 9999 ∧ 1 ≤ t.month ∧ t.month ≤ 12 ∧
  1 ≤ t.day ∧ t.day ≤ 31 ∧ t.hour < 24 ∧ t.minute < 60 ∧
  t.second < 60 ∧ t.microsecond < 1000000

instance (t : UTCDateTime) : Decidable (DTValid t) :=
  inferInstanceAs (Decidable (_ ∧ _))

/-- Mixed-radix encoding of a datetime; on valid datetimes it orders
exactly like the field-lexicographic comparison the datetime library
uses. -/
def dtKey (t : UTCDateTime) : Nat :=
  (((((t.year * 13 + t.month) * 32 + t.day) * 24 + t.hour) * 60 +
    t.minute) * 60 + t.second) * 1000000 + t.microsecond

/-- Datetime comparison (on valid datetimes this is the library's
lexicographic field order). -/
def dtLe (a b : UTCDateTime) : Prop := dtKey a ≤ dtKey b

/-- Strict datetime comparison. -/
def dtLt (a b : UTCDateTime) : Prop := dtKey a < dtKey b

instance (a b : UTCDateTime) : Decidable (dtLe a b) :=
  inferInstanceAs (Decidable (_ ≤ _))

instance (a b : UTCDateTime) : Decidable (dtLt a b) :=
  inferInstanceAs (Decidable (_ < _))

/-- Fixed-width zero-padded decimal digits of n, most significant first:
the %0kd rendering isoformat applies to each datetime field. -/
def pad : Nat → Nat → List Char
  | 0, _ => []
  | k + 1, n => Nat.digitChar (n / 10 ^ k) :: pad k (n % 10 ^ k)

/-- The microsecond suffix of isoformat: empty when the microsecond is
zero, otherwise a dot followed by six digits. -/
def usChars (us : Nat) : List Char :=
  if us = 0 then [] else '.' :: pad 6 us

/-- The character sequence of datetime.isoformat(). -/
def isoChars (t : UTCDateTime) : List Char :=
  pad 4 t.year ++ '-' :: (pad 2 t.month ++ '-' :: (pad 2 t.day ++
    'T' :: (pad 2 t.hour ++ ':' :: (pad 2 t.minute ++ ':' ::
    (pad 2 t.second ++ usChars t.microsecond)))))

/-- datetime.utcnow().isoformat() as a string. -/
def isoformat (t : UTCDateTime) : String := String.mk (isoChars t)

/-! ## The handlers -/

/-- The health handler: jsonify of status OK, the fresh isoformat
timestamp of the invocation-time clock reading, and status_code 200,
returned with HTTP status 200. -/
def health (now : UTCDateTime) : Response :=
  { status := 200
    body := [("status", JValue.str "OK"),
             ("timestamp", JValue.str (isoformat now)),
             ("status_code", JValue.int 200)] }

/-- The info handler: a constant body with HTTP status 200. -/
def info : Response :=
  { status := 200
    body := [("name", JValue.str "Simple Python Example"),
             ("version", JValue.str "1.0.0"),
             ("description", JValue.str "Example project for CI/CD Toolkit"),
             ("language", JValue.str "Python")] }

/-- The hello handler: message is the f-string built from
request.args.get('name', 'World'), with HTTP status 200. -/
def hello (args : List (String × String)) : Response :=
  { status := 200
    body := [("message", JValue.str ("Hello, " ++ argsGet args "name" "World" ++ "!"))] }

/-- The 404 handler: error Not Found plus the echoed request.path, with
HTTP status 404. -/
def not_found (path : String) : Response :=
  { status := 404
    body := [("error", JValue.str "Not Found"),
             ("path", JValue.str path)] }

/-- The 500 handler: error Internal Server Error plus a message that is
str(error) when os.environ.get('DEBUG') is truthy at invocation time and
the fixed string otherwise, with HTTP status 500.  errStr is str(error),
debugAtCall is the DEBUG value read inside the handler. -/
def internal_error (errStr : String) (debugAtCall : Option String) : Response :=
  { status := 500
    body := [("error", JValue.str "Internal Server Error"),
             ("message", JValue.str (if envTruthy debugAtCall then errStr
                                     else "An error occurred"))] }

/-- The 500 path end to end: the handler runs under the invocation-time
environment; the startup environment (under which PORT was resolved at
import) is also passed to record that the handler does not consult it —
the source reads os.environ inside internal_error, not a module-level
constant. -/
def handleFault (startupEnv currentEnv : Env) (errStr : String) : Response :=
  internal_error errStr currentEnv.DEBUG

/-- Modelled from the spec: Flask's router is not part of src/; per the
spec's router contract it matches the request's method and path against
the three registered routes (each GET-only) and any unmatched request
falls through to the 404 handler. -/
def dispatch (env : Env) (now : UTCDateTime) (req : Request) : Response :=
  if req.method = "GET" ∧ req.path = "/health" then health now
  else if req.method = "GET" ∧ req.path = "/api/info" then info
  else if req.method = "GET" ∧ req.path = "/api/hello" then hello req.args
  else not_found req.path

/-! ## PORT resolution: int(os.environ.get('PORT', 3000))

Python's int() on a string strips surrounding whitespace, accepts an
optional sign and then a non-empty digit run in which single underscores
may separate digits; anything else raises ValueError.  (Unicode digits
and non-ASCII whitespace, which int() also accepts, are not modelled;
they play no role in the claims.)  When PORT is unset, get returns the
integer default 3000 and int(3000) is 3000. -/

/-- Digit accumulation after the first digit: the Bool records whether
the previous character was an underscore (an underscore must be followed
by a digit, and must not end the literal). -/
def digitsAux : Nat → Bool → List Char → Option Nat
  | acc, false, [] => some acc
  | _, true, [] => none
  | acc, false, '_' :: rest => digitsAux acc true rest
  | acc, _, c :: rest =>
      if c.isDigit then digitsAux (acc * 10 + (c.toNat - 48)) false rest
      else none

/-- A non-empty digit run with optional single underscores between
digits, as accepted by int() after sign handling. -/
def parseDigits : List Char → Option Nat
  | [] => none
  | c :: rest =>
      if c.isDigit then digitsAux (c.toNat - 48) false rest
      else none

/-- Python int(s) for base 10: strip whitespace, optional sign, digits. -/
def pyIntParse (s : String) : Option Int :=
  let cs := ((s.data.dropWhile Char.isWhitespace).reverse.dropWhile
    Char.isWhitespace).reverse
  match cs with
  | '+' :: rest => (parseDigits rest).map (fun n => (n : Int))
  | '-' :: rest => (parseDigits rest).map (fun n => -(n : Int))
  | rest => (parseDigits rest).map (fun n => (n : Int))

/-- PORT = int(os.environ.get('PORT', 3000)) at module import: 3000 when
the variable is unset, otherwise int() of its value, which raises
ValueError (modelled as Except.error) on a non-numeric value. -/
def resolvePort (portEnv : Option String) : Except String Int :=
  match portEnv with
  | none => Except.ok 3000
  | some s =>
      match pyIntParse s with
      | some n => Except.ok n
      | none => Except.error ("invalid literal for int() with base 10: " ++ s)

/-! ## Order lemmas: the isoformat rendering is monotone in the datetime -/

/-- Decimal digit characters compare like the digits they render. -/
theorem digitChar_mono : ∀ a, a < 10 → ∀ b, b < 10 → a < b →
    Nat.digitChar a < Nat.digitChar b := by decide

/-- Prepending a common character preserves strict lexicographic order. -/
theorem listLt_cons (c : Char) (r1 r2 : List Char) (h : List.lt r1 r2) :
    List.lt (c :: r1) (c :: r2) :=
  List.lt.tail (lt_irrefl c) (lt_irrefl c) h

/-- Prepending a common run of characters preserves strict lexicographic
order. -/
theorem listLt_append_right (l r1 r2 : List Char) (h : List.lt r1 r2) :
    List.lt (l ++ r1) (l ++ r2) := by
  induction l with
  | nil => exact h
  | cons c l ih => exact listLt_cons c _ _ ih

/-- Lexicographic order on character lists is asymmetric. -/
theorem listLt_asymm : ∀ {l1 l2 : List Char}, List.lt l1 l2 → List.lt l2 l1 → False := by
  intro l1 l2 h1
  induction h1 with
  | nil b bs =>
      intro h2
      cases h2
  | head as bs hab =>
      intro h2
      cases h2 with
      | head _ _ hba => exact absurd hab (lt_asymm hba)
      | tail hn1 hn2 _ => exact hn2 hab
  | tail hn1 hn2 h ih =>
      intro h2
      cases h2 with
      | head _ _ hba => exact hn2 hba
      | tail _ _ h2t => exact ih h2t

/-- Lexicographic order on character lists is irreflexive. -/
theorem listLt_irrefl (l : List Char) (h : List.lt l l) : False :=
  listLt_asymm h h

/-- Fixed-width zero-padded renderings of numbers below the width bound
compare lexicographically like the numbers, whatever follows them. -/
theorem pad_lt_append : ∀ (k a b : Nat) (r1 r2 : List Char),
    a < 10 ^ k → b < 10 ^ k → a < b →
    List.lt (pad k a ++ r1) (pad k b ++ r2) := by
  intro k
  induction k with
  | zero =>
      intro a b r1 r2 ha hb hab
      exact absurd hab (by omega)
  | succ k ih =>
      intro a b r1 r2 ha hb hab
      have hpow : (10 : Nat) ^ (k + 1) = 10 ^ k * 10 := pow_succ 10 k
      have hpos : 0 < (10 : Nat) ^ k := pow_pos (by norm_num) k
      have hda : a / 10 ^ k < 10 := by
        refine (Nat.div_lt_iff_lt_mul hpos).mpr ?_
        rw [hpow, Nat.mul_comm] at ha
        exact ha
      have hdb : b / 10 ^ k < 10 := by
        refine (Nat.div_lt_iff_lt_mul hpos).mpr ?_
        rw [hpow, Nat.mul_comm] at hb
        exact hb
      rcases Nat.lt_or_ge (a / 10 ^ k) (b / 10 ^ k) with hlt | hge
      · exact List.lt.head _ _ (digitChar_mono _ hda _ hdb hlt)
      · have heq : a / 10 ^ k = b / 10 ^ k :=
          Nat.le_antisymm (Nat.div_le_div_right (le_of_lt hab)) hge
        have e1 := Nat.div_add_mod a (10 ^ k)
        have e2 := Nat.div_add_mod b (10 ^ k)
        rw [heq] at e1
        have hmod : a % 10 ^ k < b % 10 ^ k := by omega
        show List.lt (Nat.digitChar (a / 10 ^ k) :: (pad k (a % 10 ^ k) ++ r1))
          (Nat.digitChar (b / 10 ^ k) :: (pad k (b % 10 ^ k) ++ r2))
        rw [heq]
        exact listLt_cons _ _ _
          (ih _ _ _ _ (Nat.mod_lt _ hpos) (Nat.mod_lt _ hpos) hmod)

/-- The microsecond suffix is lexicographically monotone. -/
theorem usChars_lt (u1 u2 : Nat) (hu2 : u2 < 1000000) (h : u1 < u2) :
    List.lt (usChars u1) (usChars u2) := by
  have h2 : u2 ≠ 0 := by omega
  by_cases h1 : u1 = 0
  · simp only [usChars, if_pos h1, if_neg h2]
    exact List.lt.nil _ _
  · simp only [usChars, if_neg h1, if_neg h2]
    refine listLt_cons _ _ _ ?_
    have hb1 : u1 < 10 ^ 6 := by norm_num; omega
    have hb2 : u2 < 10 ^ 6 := by norm_num; omega
    simpa using pad_lt_append 6 u1 u2 [] [] hb1 hb2 h

/-- Field-lexicographic strict order on datetimes, the comparison the
datetime library implements. -/
def dtLex (a b : UTCDateTime) : Prop :=
  a.year < b.year ∨ (a.year = b.year ∧ (a.month < b.month ∨ (a.month = b.month ∧
    (a.day < b.day ∨ (a.day = b.day ∧ (a.hour < b.hour ∨ (a.hour = b.hour ∧
    (a.minute < b.minute ∨ (a.minute = b.minute ∧ (a.second < b.second ∨
    (a.second = b.second ∧ a.microsecond < b.microsecond)))))))))))

/-- On valid datetimes the mixed-radix key order implies the
field-lexicographic order. -/
theorem dtLex_of_dtLt (a b : UTCDateTime) (ha : DTValid a) (hb : DTValid b)
    (h : dtLt a b) : dtLex a b := by
  obtain ⟨y1, mo1, d1, hh1, mi1, s1, u1⟩ := a
  obtain ⟨y2, mo2, d2, hh2, mi2, s2, u2⟩ := b
  simp only [DTValid] at ha hb
  simp only [dtLt, dtKey] at h
  simp only [dtLex]
  omega

/-- On valid datetimes equal mixed-radix keys force equal datetimes. -/
theorem dt_eq_of_key_eq (a b : UTCDateTime) (ha : DTValid a) (hb : DTValid b)
    (h : dtKey a = dtKey b) : a = b := by
  obtain ⟨y1, mo1, d1, hh1, mi1, s1, u1⟩ := a
  obtain ⟨y2, mo2, d2, hh2, mi2, s2, u2⟩ := b
  simp only [DTValid] at ha hb
  simp only [dtKey] at h
  simp only [UTCDateTime.mk.injEq]
  omega

/-- The isoformat character sequence is strictly monotone with respect
to the field-lexicographic datetime order. -/
theorem isoChars_lt_of_dtLex (a b : UTCDateTime) (ha : DTValid a) (hb : DTValid b)
    (h : dtLex a b) : List.lt (isoChars a) (isoChars b) := by
  obtain ⟨y1, mo1, d1, hh1, mi1, s1, u1⟩ := a
  obtain ⟨y2, mo2, d2, hh2, mi2, s2, u2⟩ := b
  simp only [DTValid] at ha hb
  simp only [dtLex] at h
  simp only [isoChars]
  have c4 : (10 : Nat) ^ 4 = 10000 := by norm_num
  have c2 : (10 : Nat) ^ 2 = 100 := by norm_num
  rcases h with hy | ⟨hy, h⟩
  · exact pad_lt_append 4 y1 y2 _ _ (by omega) (by omega) hy
  subst hy
  refine listLt_append_right _ _ _ (listLt_cons _ _ _ ?_)
  rcases h with hmo | ⟨hmo, h⟩
  · exact pad_lt_append 2 mo1 mo2 _ _ (by omega) (by omega) hmo
  subst hmo
  refine listLt_append_right _ _ _ (listLt_cons _ _ _ ?_)
  rcases h with hd | ⟨hd, h⟩
  · exact pad_lt_append 2 d1 d2 _ _ (by omega) (by omega) hd
  subst hd
  refine listLt_append_right _ _ _ (listLt_cons _ _ _ ?_)
  rcases h with hh | ⟨hh, h⟩
  · exact pad_lt_append 2 hh1 hh2 _ _ (by omega) (by omega) hh
  subst hh
  refine listLt_append_right _ _ _ (listLt_cons _ _ _ ?_)
  rcases h with hmi | ⟨hmi, h⟩
  · exact pad_lt_append 2 mi1 mi2 _ _ (by omega) (by omega) hmi
  subst hmi
  refine listLt_append_right _ _ _ (listLt_cons _ _ _ ?_)
  rcases h with hs | ⟨hs, h⟩
  · exact pad_lt_append 2 s1 s2 _ _ (by omega) (by omega) hs
  subst hs
  refine listLt_append_right _ _ _ ?_
  exact usChars_lt u1 u2 (by omega) h

/-- The isoformat string is monotone: a later valid datetime never
renders to a lexicographically smaller string. -/
theorem isoformat_le_of_dtLe (a b : UTCDateTime) (ha : DTValid a) (hb : DTValid b)
    (h : dtLe a b) : isoformat a ≤ isoformat b := by
  rcases lt_or_eq_of_le h with hlt | heq
  · have hlex := dtLex_of_dtLt a b ha hb hlt
    have hchars := isoChars_lt_of_dtLex a b ha hb hlex
    intro hcon
    exact listLt_asymm hchars ((List.lt_iff_lex_lt _ _).mpr (String.lt_iff_toList_lt.mp hcon))
  · have hab : a = b := dt_eq_of_key_eq a b ha hb heq
    subst hab
    intro hcon
    exact listLt_irrefl _ ((List.lt_iff_lex_lt _ _).mpr (String.lt_iff_toList_lt.mp hcon))

/-! ## The claims -/

/-- Reduction of the router on the three registered routes and on
unmatched paths. -/
theorem dispatch_health (env : Env) (now : UTCDateTime) (args : List (String × String)) :
    dispatch env now ⟨"GET", "/health", args⟩ = health now := by
  simp [dispatch]

theorem dispatch_info (env : Env) (now : UTCDateTime) (args : List (String × String)) :
    dispatch env now ⟨"GET", "/api/info", args⟩ = info := by
  simp [dispatch]

theorem dispatch_hello (env : Env) (now : UTCDateTime) (args : List (String × String)) :
    dispatch env now ⟨"GET", "/api/hello", args⟩ = hello args := by
  simp [dispatch]

/-- The first match of the name predicate in a query list whose head
block is name-free is the explicit name pair. -/
theorem find_first_name (pre post : List (String × String)) (X : String)
    (h : ∀ p ∈ pre, p.1 ≠ "name") :
    (pre ++ ("name", X) :: post).find? (fun p => p.1 == "name") = some ("name", X) := by
  induction pre with
  | nil => simp
  | cons q pre ih =>
      have hq : q.1 ≠ "name" := h q (by simp)
      rw [List.cons_append, List.find?_cons_of_neg _ (by simp [hq])]
      exact ih (fun p hp => h p (by simp [hp]))

/-- C1 (counterexample): PORT resolution is claimed never to fail and to
yield 3000 on any non-numeric value; but at PORT set to the string abc
the startup expression int(os.environ.get('PORT', 3000)) raises
ValueError instead of resolving to 3000. -/
theorem C1_counterexample :
    resolvePort (some "abc") =
      Except.error "invalid literal for int() with base 10: abc" ∧
    resolvePort (some "abc") ≠ Except.ok 3000 := by
  constructor
  · rfl
  · intro h
    exact Except.noConfusion ((rfl : resolvePort (some "abc") = _) ▸ h)

/-- C1 (amended): the port defaults to 3000 only when PORT is unset;
when PORT is set, resolution succeeds with the parsed integer exactly
when the value is a valid int() literal, and fails (ValueError at
process start) otherwise. -/
theorem C1_port_resolution :
    resolvePort none = Except.ok 3000 ∧
    (∀ s n, pyIntParse s = some n → resolvePort (some s) = Except.ok n) ∧
    (∀ s, pyIntParse s = none →
      resolvePort (some s) =
        Except.error ("invalid literal for int() with base 10: " ++ s)) := by
  refine ⟨rfl, ?_, ?_⟩
  · intro s n h
    simp [resolvePort, h]
  · intro s h
    simp [resolvePort, h]

/-- C1 (witness): the amended statement applied at the numeric value
8080 and at the non-numeric value abc. -/
theorem C1_port_resolution_witness :
    pyIntParse "8080" = some 8080 ∧
    resolvePort (some "8080") = Except.ok 8080 ∧
    pyIntParse "abc" = none ∧
    resolvePort (some "abc") =
      Except.error ("invalid literal for int() with base 10: " ++ "abc") :=
  ⟨by decide, C1_port_resolution.2.1 "8080" 8080 (by decide),
   by decide, C1_port_resolution.2.2 "abc" (by decide)⟩

/-- C2: every request whose path is none of the three registered paths
falls through to the 404 handler, whose response has status 404 and a
body with error Not Found and path echoing the requested path. -/
theorem C2_not_found_fallthrough : ∀ (env : Env) (now : UTCDateTime) (req : Request),
    req.path ≠ "/health" → req.path ≠ "/api/info" → req.path ≠ "/api/hello" →
    dispatch env now req =
      { status := 404
        body := [("error", JValue.str "Not Found"),
                 ("path", JValue.str req.path)] } := by
  intro env now req h1 h2 h3
  simp only [dispatch]
  rw [if_neg (fun hc => h1 hc.2), if_neg (fun hc => h2 hc.2), if_neg (fun hc => h3 hc.2)]
  rfl

/-- C2 (witness): the fall-through applied at the unmatched path
/unknown. -/
theorem C2_not_found_witness :
    ("/unknown" : String) ≠ "/health" ∧ ("/unknown" : String) ≠ "/api/info" ∧
    ("/unknown" : String) ≠ "/api/hello" ∧
    dispatch ⟨none, none⟩ ⟨2024, 1, 1, 0, 0, 0, 0⟩ ⟨"GET", "/unknown", []⟩ =
      { status := 404
        body := [("error", JValue.str "Not Found"),
                 ("path", JValue.str "/unknown")] } :=
  ⟨by decide, by decide, by decide,
   C2_not_found_fallthrough ⟨none, none⟩ ⟨2024, 1, 1, 0, 0, 0, 0⟩
     ⟨"GET", "/unknown", []⟩ (by decide) (by decide) (by decide)⟩

/-- C3 (counterexample): the claim promises the fault description
whenever DEBUG is set; but with DEBUG set to the empty string (set, yet
falsy for Python truthiness) the handler returns the generic message
instead of the description boom. -/
theorem C3_counterexample :
    (some "" : Option String) ≠ none ∧
    bodyGet (internal_error "boom" (some "")).body "message" =
      some (JValue.str "An error occurred") ∧
    ("An error occurred" : String) ≠ "boom" := by
  refine ⟨by decide, ?_, by decide⟩
  rfl

/-- C3 (amended): the 500 handler always yields status 500 with error
Internal Server Error; the message is the fault description exactly when
DEBUG is set to a non-empty string at handler-invocation time, and the
generic fixed string when DEBUG is unset or set to the empty string; the
startup-time environment plays no role in the outcome. -/
theorem C3_internal_error :
    (∀ errStr dbg, (internal_error errStr dbg).status = 500 ∧
      bodyGet (internal_error errStr dbg).body "error" =
        some (JValue.str "Internal Server Error")) ∧
    (∀ errStr s, s ≠ "" →
      bodyGet (internal_error errStr (some s)).body "message" =
        some (JValue.str errStr)) ∧
    (∀ errStr, bodyGet (internal_error errStr none).body "message" =
      some (JValue.str "An error occurred")) ∧
    (∀ errStr, bodyGet (internal_error errStr (some "")).body "message" =
      some (JValue.str "An error occurred")) ∧
    (∀ e0 e0' e1 errStr, handleFault e0 e1 errStr = handleFault e0' e1 errStr) := by
  refine ⟨?_, ?_, ?_, ?_, ?_⟩
  · intro errStr dbg
    exact ⟨rfl, rfl⟩
  · intro errStr s h
    simp [internal_error, envTruthy, bodyGet, h]
  · intro errStr
    rfl
  · intro errStr
    rfl
  · intro e0 e0' e1 errStr
    rfl

/-- C3 (witness): the amended statement applied at fault description
boom with DEBUG set to 1, unset, and set to the empty string. -/
theorem C3_internal_error_witness :
    (internal_error "boom" (some "1")).status = 500 ∧
    ("1" : String) ≠ "" ∧
    bodyGet (internal_error "boom" (some "1")).body "message" =
      some (JValue.str "boom") ∧
    bodyGet (internal_error "boom" none).body "message" =
      some (JValue.str "An error occurred") ∧
    bodyGet (internal_error "boom" (some "")).body "message" =
      some (JValue.str "An error occurred") :=
  ⟨(C3_internal_error.1 "boom" (some "1")).1, by decide,
   C3_internal_error.2.1 "boom" "1" (by decide),
   C3_internal_error.2.2.1 "boom",
   C3_internal_error.2.2.2.1 "boom"⟩

/-- C4: a GET request to /api/hello answers 200 with body exactly the
message Hello, X! when the name parameter is supplied with (first)
value X, and exactly Hello, World! when the name parameter is absent,
whatever the environment, clock, or remaining query parameters. -/
theorem C4_hello_query : ∀ (env : Env) (now : UTCDateTime)
    (args : List (String × String)) (X : String),
    (args.find? (fun p => p.1 == "name") = some ("name", X) →
      dispatch env now ⟨"GET", "/api/hello", args⟩ =
        { status := 200
          body := [("message", JValue.str ("Hello, " ++ X ++ "!"))] }) ∧
    (args.find? (fun p => p.1 == "name") = none →
      dispatch env now ⟨"GET", "/api/hello", args⟩ =
        { status := 200
          body := [("message", JValue.str "Hello, World!")] }) := by
  intro env now args X
  constructor
  · intro h
    rw [dispatch_hello]
    simp [hello, argsGet, h]
  · intro h
    rw [dispatch_hello]
    simp [hello, argsGet, h]

/-- C4 (witness): the hello contract applied at name CI/CD (a value with
a URL-reserved character) and at an empty query. -/
theorem C4_hello_query_witness :
    ([("name", "CI/CD")].find? (fun p => p.1 == "name") = some ("name", "CI/CD")) ∧
    dispatch ⟨none, none⟩ ⟨2024, 1, 1, 0, 0, 0, 0⟩ ⟨"GET", "/api/hello", [("name", "CI/CD")]⟩ =
      { status := 200
        body := [("message", JValue.str ("Hello, " ++ "CI/CD" ++ "!"))] } ∧
    (([] : List (String × String)).find? (fun p => p.1 == "name") = none) ∧
    dispatch ⟨none, none⟩ ⟨2024, 1, 1, 0, 0, 0, 0⟩ ⟨"GET", "/api/hello", []⟩ =
      { status := 200
        body := [("message", JValue.str "Hello, World!")] } :=
  ⟨by decide,
   (C4_hello_query ⟨none, none⟩ ⟨2024, 1, 1, 0, 0, 0, 0⟩ [("name", "CI/CD")] "CI/CD").1 (by decide),
   by decide,
   (C4_hello_query ⟨none, none⟩ ⟨2024, 1, 1, 0, 0, 0, 0⟩ [] "X").2 (by decide)⟩

/-- C5: a GET request to /api/info answers 200 with exactly the static
body (name Simple Python Example, version 1.0.0, non-empty description,
non-empty language), identically on every call and independently of the
environment and the clock. -/
theorem C5_info_static : ∀ (env : Env) (now : UTCDateTime) (args : List (String × String)),
    dispatch env now ⟨"GET", "/api/info", args⟩ =
      { status := 200
        body := [("name", JValue.str "Simple Python Example"),
                 ("version", JValue.str "1.0.0"),
                 ("description", JValue.str "Example project for CI/CD Toolkit"),
                 ("language", JValue.str "Python")] } ∧
    (∃ d, bodyGet info.body "description" = some (JValue.str d) ∧ d ≠ "") ∧
    (∃ l, bodyGet info.body "language" = some (JValue.str l) ∧ l ≠ "") := by
  intro env now args
  refine ⟨?_, ⟨"Example project for CI/CD Toolkit", rfl, by decide⟩,
    ⟨"Python", rfl, by decide⟩⟩
  rw [dispatch_info]
  rfl

/-- C6: a GET request to /health always answers 200 with body status OK,
status_code 200, and timestamp the isoformat rendering of the clock
reading taken at that invocation (fresh per call, not cached). -/
theorem C6_health_ok : ∀ (env : Env) (now : UTCDateTime) (args : List (String × String)),
    dispatch env now ⟨"GET", "/health", args⟩ =
      { status := 200
        body := [("status", JValue.str "OK"),
                 ("timestamp", JValue.str (isoformat now)),
                 ("status_code", JValue.int 200)] } := by
  intro env now args
  rw [dispatch_health]
  rfl

/-- C7: repeated identical requests to /api/info and /api/hello yield
identical responses whatever the environment and clock at each
repetition; and across two health calls whose (valid) clock readings are
ordered, the later timestamp string is never smaller. -/
theorem C7_idempotent_and_monotone :
    (∀ (e1 e2 : Env) (t1 t2 : UTCDateTime) (req : Request),
      req.path = "/api/info" ∨ req.path = "/api/hello" →
      dispatch e1 t1 req = dispatch e2 t2 req) ∧
    (∀ (e1 e2 : Env) (t1 t2 : UTCDateTime) (a1 a2 : List (String × String)),
      DTValid t1 → DTValid t2 → dtLe t1 t2 →
      timestampOf (dispatch e1 t1 ⟨"GET", "/health", a1⟩) ≤
        timestampOf (dispatch e2 t2 ⟨"GET", "/health", a2⟩)) := by
  constructor
  · intro e1 e2 t1 t2 req h
    rcases h with h | h <;> rw [show req = ⟨req.method, req.path, req.args⟩ from rfl, h] <;>
      simp [dispatch]
  · intro e1 e2 t1 t2 a1 a2 hv1 hv2 hle
    rw [dispatch_health, dispatch_health]
    show isoformat t1 ≤ isoformat t2
    exact isoformat_le_of_dtLe t1 t2 hv1 hv2 hle

/-- C7 (witness): the idempotence part applied to an info request under
two different environments and clocks, and the monotonicity part applied
to two ordered clock readings one second apart. -/
theorem C7_witness :
    dispatch ⟨none, none⟩ ⟨2024, 1, 1, 0, 0, 0, 0⟩ ⟨"GET", "/api/info", []⟩ =
      dispatch ⟨some "80", some "1"⟩ ⟨2025, 6, 30, 23, 59, 59, 999999⟩ ⟨"GET", "/api/info", []⟩ ∧
    DTValid ⟨2024, 1, 1, 0, 0, 0, 0⟩ ∧ DTValid ⟨2024, 1, 1, 0, 0, 1, 0⟩ ∧
    dtLe ⟨2024, 1, 1, 0, 0, 0, 0⟩ ⟨2024, 1, 1, 0, 0, 1, 0⟩ ∧
    timestampOf (dispatch ⟨none, none⟩ ⟨2024, 1, 1, 0, 0, 0, 0⟩ ⟨"GET", "/health", []⟩) ≤
      timestampOf (dispatch ⟨none, none⟩ ⟨2024, 1, 1, 0, 0, 1, 0⟩ ⟨"GET", "/health", []⟩) :=
  ⟨C7_idempotent_and_monotone.1 ⟨none, none⟩ ⟨some "80", some "1"⟩
     ⟨2024, 1, 1, 0, 0, 0, 0⟩ ⟨2025, 6, 30, 23, 59, 59, 999999⟩
     ⟨"GET", "/api/info", []⟩ (Or.inl rfl),
   by decide, by decide, by decide,
   C7_idempotent_and_monotone.2 ⟨none, none⟩ ⟨none, none⟩
     ⟨2024, 1, 1, 0, 0, 0, 0⟩ ⟨2024, 1, 1, 0, 0, 1, 0⟩ [] []
     (by decide) (by decide) (by decide)⟩

/-- C8: every routed response carries status 200 or 404, and the 500
handler (run on a handler fault) carries status 500, so every response
status lies in the set 200, 404, 500; bodies are JSON objects by
construction of jsonify. -/
theorem C8_status_codes :
    (∀ (env : Env) (now : UTCDateTime) (req : Request),
      (dispatch env now req).status = 200 ∨ (dispatch env now req).status = 404 ∨
        (dispatch env now req).status = 500) ∧
    (∀ (errStr : String) (dbg : Option String),
      (internal_error errStr dbg).status = 500) := by
  constructor
  · intro env now req
    simp only [dispatch]
    split
    · exact Or.inl rfl
    split
    · exact Or.inl rfl
    split
    · exact Or.inl rfl
    · exact Or.inr (Or.inl rfl)
  · intro errStr dbg
    rfl

/-- C9: when the query string carries the name parameter several times,
the hello response is built from the first supplied value and the later
values are ignored. -/
theorem C9_first_value_wins : ∀ (env : Env) (now : UTCDateTime)
    (pre post : List (String × String)) (X : String),
    (∀ p ∈ pre, p.1 ≠ "name") →
    dispatch env now ⟨"GET", "/api/hello", pre ++ ("name", X) :: post⟩ =
      { status := 200
        body := [("message", JValue.str ("Hello, " ++ X ++ "!"))] } := by
  intro env now pre post X h
  rw [dispatch_hello]
  simp [hello, argsGet, find_first_name pre post X h]

/-- C9 (witness): the first-wins contract applied to the duplicated
query name=Alice followed by name=Bob: the response greets Alice. -/
theorem C9_first_value_wins_witness :
    (∀ p ∈ ([] : List (String × String)), p.1 ≠ "name") ∧
    dispatch ⟨none, none⟩ ⟨2024, 1, 1, 0, 0, 0, 0⟩
        ⟨"GET", "/api/hello", [] ++ ("name", "Alice") :: [("name", "Bob")]⟩ =
      { status := 200
        body := [("message", JValue.str ("Hello, " ++ "Alice" ++ "!"))] } :=
  ⟨by decide,
   C9_first_value_wins ⟨none, none⟩ ⟨2024, 1, 1, 0, 0, 0, 0⟩ [] [("name", "Bob")]
     "Alice" (by decide)⟩

/-- C10: the info and hello handlers are deterministic in the request
alone: under any two environments (any PORT and DEBUG values) and any
two clock readings (hence after any two histories, there being no
mutable state in the embedding or the source), the same request yields
the same response body and status. -/
theorem C10_info_hello_deterministic :
    ∀ (e1 e2 : Env) (t1 t2 : UTCDateTime) (req : Request),
      req.path = "/api/info" ∨ req.path = "/api/hello" →
      dispatch e1 t1 req = dispatch e2 t2 req := by
  intro e1 e2 t1 t2 req h
  rcases h with h | h <;> rw [show req = ⟨req.method, req.path, req.args⟩ from rfl, h] <;>
    simp [dispatch]

/-- C10 (witness): determinism applied to a hello request under two
environments that differ in both PORT and DEBUG and two different
clocks. -/
theorem C10_info_hello_deterministic_witness :
    dispatch ⟨none, none⟩ ⟨2024, 1, 1, 0, 0, 0, 0⟩ ⟨"GET", "/api/hello", [("name", "A")]⟩ =
      dispatch ⟨some "8080", some "1"⟩ ⟨2025, 12, 31, 23, 59, 59, 1⟩
        ⟨"GET", "/api/hello", [("name", "A")]⟩ :=
  C10_info_hello_deterministic ⟨none, none⟩ ⟨some "8080", some "1"⟩
    ⟨2024, 1, 1, 0, 0, 0, 0⟩ ⟨2025, 12, 31, 23, 59, 59, 1⟩
    ⟨"GET", "/api/hello", [("name", "A")]⟩ (Or.inr rfl)

end SimplePyApp
